import Mathlib

/-!
Shallow embedding of the Telegram-bot dispatch core in `src/bot.py`
(repository Bossdestinytelegrambot).

Handlers are embedded as pure functions from the update payload (plus the
values the source draws from `random`, `datetime` and the environment) to a
trace of outward effects.  The dispatch wiring of `main` (handler
registration order, first-match dispatch, error-handler invocation) is
embedded as `classify` / `dispatchOne` / `dispatchAll`.
-/

namespace Bot

/-- One observable outward action attempted by a handler or by the
error handler.  `rateCheck` is the observable a RateLimiter consultation
would produce; it is part of the vocabulary so that claims about rate
limiting can be stated. -/
inductive Effect where
  | send (text : String)
  | sendSticker (fileId : String)
  | ack
  | edit (text : String)
  | logError
  | rateCheck (userId : Nat)
  deriving DecidableEq, Repr

/-- `True` exactly on the `rateCheck` effect. -/
def Effect.isRateCheck : Effect → Bool
  | .rateCheck _ => true
  | _ => false

/-- `True` exactly on the `edit` effect (a message edit). -/
def Effect.isEdit : Effect → Bool
  | .edit _ => true
  | _ => false

/-- `True` exactly on the `logError` effect. -/
def Effect.isLog : Effect → Bool
  | .logError => true
  | _ => false

/-- `True` on the reply-send effect (`reply_text`). -/
def Effect.isSend : Effect → Bool
  | .send _ => true
  | _ => false

/-- The originating Telegram user of an update (`update.effective_user`,
`query.from_user`): numeric id, first name, optional username and optional
language code. -/
structure TUser where
  id : Nat
  firstName : String
  username : Option String
  languageCode : Option String
  deriving DecidableEq, Repr

/-- A Telegram message payload: optional raw text, list of photo sizes
(width, height, file size), optional sticker file id, optional location
(latitude, longitude as scaled integers), plus document/video markers for
content kinds the source registers no handler for. -/
structure Msg where
  text : Option String
  photo : List (Nat × Nat × Nat)
  sticker : Option String
  location : Option (Int × Int)
  document : Bool
  video : Bool
  deriving DecidableEq, Repr

/-- An inbound update: either a message from a user or a callback query
(button press) carrying its callback-data token. -/
inductive Upd where
  | message (m : Msg) (user : TUser)
  | callbackQuery (data : String) (user : TUser)
  deriving DecidableEq, Repr

/-- The handlers registered in `main` (src/bot.py lines 223-239), one
constructor per registered handler function. -/
inductive HandlerId where
  | start | help_command | echo | caps | time_command | roll_dice
  | flip_coin | joke | handle_text | handle_photo | handle_sticker
  | handle_location | button_callback
  deriving DecidableEq, Repr

/-- The values the source draws from its environment during one handler
invocation: `random.randint(1, 6)`, `random.choice` on the joke list
(as an index), `random.choice(["Heads", "Tails"])`, the formatted current
time, and a failure oracle saying whether a given handler invocation
raises (e.g. the transport send fails). -/
structure Env where
  diceRoll : Int
  jokeIdx : Nat
  coinHeads : Bool
  nowStr : String
  raises : HandlerId → Bool

/-- Substring containment on character lists, the embedding of Python
`needle in hay` for strings. -/
def containsSub (needle : List Char) : List Char → Bool
  | [] => needle.isEmpty
  | c :: t => needle.isPrefixOf (c :: t) || containsSub needle t

/-- Python `str.lower()` on the character list of a string. -/
def lowerChars (s : String) : List Char :=
  s.toList.map Char.toLower

/-- Python list indexing `l[i]` with negative-index semantics: the valid
index range is `-len ≤ i < len`, a negative `i` addresses `len + i`. -/
def pyIdx (len : Nat) (i : Int) : Option Nat :=
  if 0 ≤ i then (if i.toNat < len then some i.toNat else none)
  else (if (-i).toNat ≤ len then some (len - (-i).toNat) else none)

/-- Python `l[i]` on a list of strings: `IndexError` when out of range. -/
def pyGet (l : List String) (i : Int) : Except String String :=
  match pyIdx l.length i with
  | some n =>
    match l.get? n with
    | some x => .ok x
    | none => .error "IndexError"
  | none => .error "IndexError"

/-- `random.choice(l)`: the random source provides an index, always taken
in range of the non-empty list. -/
def pyChoice (l : List String) (i : Nat) : String :=
  l.getD (i % l.length) ""

/-- The welcome text of `start` (buttons and exact markup abbreviated to
the parts the spec talks about; it interpolates the first name). -/
def welcomeText (firstName : String) : String :=
  "🤖 <b>Welcome, " ++ firstName ++ "!</b>\n\nI\x27m personal assistant to bossdestiny 🔥.\n\n<b>Available Commands:</b>\n/start - Show this menu\n/help - Get assistance\n/echo <text> - Repeat your message\n/joke - Random joke\n/time - Current time\n/caps <text> - SHOUT YOUR TEXT"

/-- `start`: sends the welcome message (with the inline keyboard). -/
def start (user : TUser) : List Effect :=
  [.send (welcomeText user.firstName)]

/-- `help_command`: sends the static help text. -/
def help_command : List Effect :=
  [.send "🆘 <b>Bot Help Center</b> ..."]

/-- `echo`: repeats `context.args` joined by spaces, or a usage hint when
there are no arguments. -/
def echo (args : List String) : List Effect :=
  if !args.isEmpty then
    [.send ("📢 You said:\n\n<i>" ++ String.intercalate " " args ++ "</i>")]
  else
    [.send "Usage: /echo <your message>"]

/-- `caps`: uppercases `context.args` joined by spaces, or a usage hint. -/
def caps (args : List String) : List Effect :=
  if !args.isEmpty then
    [.send ("🔊 " ++ (String.intercalate " " args).toUpper)]
  else
    [.send "Usage: /caps <text to shout>"]

/-- `time_command`: sends the formatted current time. -/
def time_command (nowStr : String) : List Effect :=
  [.send ("🕐 Current time:\n<code>" ++ nowStr ++ "</code>")]

/-- The six-element dice-emoji list of `roll_dice`. -/
def dice_emojis : List String := ["⚀", "⚁", "⚂", "⚃", "⚄", "⚅"]

/-- `roll_dice`: `result` is `random.randint(1, 6)`; the reply indexes
`dice_emojis[result - 1]` (Python semantics, so an out-of-range index
raises `IndexError`). -/
def roll_dice (result : Int) : Except String (List Effect) :=
  match pyGet dice_emojis (result - 1) with
  | .ok e => .ok [.send ("🎲 You rolled: " ++ e ++ " <b>" ++ toString result ++ "</b>")]
  | .error s => .error s

/-- The contract of Python `random.randint(a, b)`: the result lies in the
inclusive range `[a, b]`. -/
def randintSpec (a b r : Int) : Prop := a ≤ r ∧ r ≤ b

/-- `flip_coin`: `random.choice(["Heads", "Tails"])` with matching emoji. -/
def flip_coin (heads : Bool) : List Effect :=
  let result := if heads then "Heads" else "Tails"
  let emoji := if result = "Heads" then "👑" else "🪙"
  [.send (emoji ++ " <b>" ++ result ++ "</b>!")]

/-- The five-element joke list of `joke`. -/
def jokes : List String :=
  ["Why do programmers prefer dark mode? Because light attracts bugs! 🐛",
   "Why did the developer go broke? Because he used up all his cache! 💸",
   "How many programmers does it take to change a light bulb? None, that\x27s a hardware problem! 💡",
   "Why do Java developers wear glasses? Because they don\x27t C#! 👓",
   "What\x27s a computer\x27s favorite snack? Microchips! 🍟"]

/-- `joke`: sends `random.choice(jokes)`. -/
def joke (idx : Nat) : List Effect :=
  [.send (pyChoice jokes idx)]

/-- `handle_text`: greeting keywords first (`any(word in text.lower() for
word in ['hello', 'hi', 'hey'])`), then `'thank' in text.lower()`, else
the formatted echo. -/
def handle_text (text : String) (firstName : String) : List Effect :=
  if ["hello", "hi", "hey"].any (fun w => containsSub w.toList (lowerChars text)) then
    [.send ("👋 Hello " ++ firstName ++ "!")]
  else if containsSub "thank".toList (lowerChars text) then
    [.send "🙏 You\x27re welcome!"]
  else
    [.send ("You sent: <code>" ++ text ++ "</code>\n\nTry /help for commands!")]

/-- `handle_photo`: reads `update.message.photo[-1]` (highest resolution)
and reports its dimensions and file size. -/
def handle_photo (photo : List (Nat × Nat × Nat)) : Except String (List Effect) :=
  match photo.getLast? with
  | some p =>
    .ok [.send ("📸 Nice photo!\nResolution: " ++ toString p.1 ++ "x" ++ toString p.2.1 ++ "\nFile size: " ++ toString p.2.2 ++ " bytes")]
  | none => .error "IndexError"

/-- `handle_sticker`: echoes the sticker back by file id
(`update.message.sticker.file_id`; a missing sticker raises). -/
def handle_sticker (sticker : Option String) : Except String (List Effect) :=
  match sticker with
  | some fid => .ok [.sendSticker fid]
  | none => .error "AttributeError"

/-- `handle_location`: reports latitude and longitude. -/
def handle_location (loc : Option (Int × Int)) : Except String (List Effect) :=
  match loc with
  | some p =>
    .ok [.send ("📍 Location received!\nLatitude: <code>" ++ toString p.1 ++ "</code>\nLongitude: <code>" ++ toString p.2 ++ "</code>")]
  | none => .error "AttributeError"

/-- The stats text of `button_callback` for the `stats` token: name, id,
username (placeholder `N/A` when absent) and language code. -/
def statsText (user : TUser) : String :=
  "📊 <b>Your Stats</b>\n\n👤 Name: " ++ user.firstName
    ++ "\n🆔 ID: <code>" ++ toString user.id ++ "</code>\n📛 Username: @"
    ++ (match user.username with | some u => u | none => "N/A")
    ++ "\n🌐 Language: "
    ++ (match user.languageCode with | some l => l | none => "None")

/-- `button_callback`: answers the callback query first, then edits the
message for the known tokens `dice` and `stats`; any other token gets only
the acknowledgement. -/
def button_callback (data : String) (user : TUser) (diceRoll : Int) : List Effect :=
  Effect.ack ::
    (if data = "dice" then
      [.edit ("🎲 You rolled: <b>" ++ toString diceRoll ++ "</b>")]
    else if data = "stats" then
      [.edit (statsText user)]
    else [])

/-- `error_handler`: logs the error, then (only when the update has an
effective message) attempts one generic error reply. -/
def error_handler (hasEffectiveMessage : Bool) : List Effect :=
  Effect.logError ::
    (if hasEffectiveMessage then
      [.send "⚠️ An error occurred. Please try again later."]
    else [])

/-- The command name of a text, per the library's CommandHandler matching:
text beginning with `/`, first whitespace-delimited token, optional
`@botname` suffix stripped, lowercased.  `none` when the text is not a
command. -/
def commandOf (t : String) : Option String :=
  match t.toList with
  | '/' :: rest =>
    some (String.mk (((rest.takeWhile (fun c => c ≠ ' ')).takeWhile (fun c => c ≠ '@')).map Char.toLower))
  | _ => none

/-- `filters.COMMAND` on a message: its text is a command. -/
def isCommandMsg (m : Msg) : Bool :=
  match m.text with
  | some t => (commandOf t).isSome
  | none => false

/-- The filter a `CommandHandler name` applies to a message. -/
def cmdMatch (name : String) (m : Msg) : Bool :=
  match m.text with
  | some t => commandOf t == some name
  | none => false

/-- The filter each registered handler applies to a message, embedding the
`CommandHandler` / `MessageHandler` filters of `main`
(`filters.TEXT & ~filters.COMMAND`, `filters.PHOTO`, `filters.Sticker.ALL`,
`filters.LOCATION`).  `button_callback` matches no message: it is reached
only through callback queries. -/
def msgFilter : HandlerId → Msg → Bool
  | .start, m => cmdMatch "start" m
  | .help_command, m => cmdMatch "help" m
  | .echo, m => cmdMatch "echo" m
  | .caps, m => cmdMatch "caps" m
  | .time_command, m => cmdMatch "time" m
  | .roll_dice, m => cmdMatch "roll" m
  | .flip_coin, m => cmdMatch "flip" m
  | .joke, m => cmdMatch "joke" m
  | .handle_text, m => m.text.isSome && !isCommandMsg m
  | .handle_photo, m => !m.photo.isEmpty
  | .handle_sticker, m => m.sticker.isSome
  | .handle_location, m => m.location.isSome
  | .button_callback, _ => false

/-- The handlers in the order `main` registers them (src/bot.py lines
223-236); callback queries go to `button_callback` (line 239). -/
def registeredHandlers : List HandlerId :=
  [.start, .help_command, .echo, .caps, .time_command, .roll_dice,
   .flip_coin, .joke, .handle_text, .handle_photo, .handle_sticker,
   .handle_location]

/-- Classification: the first registered handler whose filter accepts the
update (the library dispatches each update to the first matching handler
of the default group); callback-query updates match `CallbackQueryHandler`
with no filter. -/
def classify : Upd → Option HandlerId
  | .message m _ => registeredHandlers.find? (fun h => msgFilter h m)
  | .callbackQuery _ _ => some HandlerId.button_callback

/-- `context.args`: the whitespace-split tokens of the message text after
the command token. -/
def ctxArgs (m : Msg) : List String :=
  match m.text with
  | some t => ((t.splitOn " ").filter (fun s => s ≠ "")).drop 1
  | none => []

/-- Run one handler on one update, as an `Except`: `.error` when the
handler raises — either through the environment's failure oracle (e.g. a
transport send failure) or through its own code (out-of-range index,
missing payload field). -/
def runHandler (e : Env) (h : HandlerId) (u : Upd) : Except String (List Effect) :=
  if e.raises h then .error "handler raised" else
  match h, u with
  | .start, .message _ user => .ok (start user)
  | .help_command, .message _ _ => .ok help_command
  | .echo, .message m _ => .ok (echo (ctxArgs m))
  | .caps, .message m _ => .ok (caps (ctxArgs m))
  | .time_command, .message _ _ => .ok (time_command e.nowStr)
  | .roll_dice, .message _ _ => roll_dice e.diceRoll
  | .flip_coin, .message _ _ => .ok (flip_coin e.coinHeads)
  | .joke, .message _ _ => .ok (joke e.jokeIdx)
  | .handle_text, .message m user =>
    match m.text with
    | some t => .ok (handle_text t user.firstName)
    | none => .error "AttributeError"
  | .handle_photo, .message m _ => handle_photo m.photo
  | .handle_sticker, .message m _ => handle_sticker m.sticker
  | .handle_location, .message m _ => handle_location m.location
  | .button_callback, .callbackQuery d user => .ok (button_callback d user e.diceRoll)
  | _, _ => .error "AttributeError"

/-- `update.effective_message` presence (messages carry one; callback
queries of inline keyboards carry the message the keyboard is attached
to). -/
def hasEffectiveMessage : Upd → Bool
  | .message _ _ => true
  | .callbackQuery _ _ => true

/-- Process one update end to end: classify, run the matching handler, and
on a raised error invoke the registered `error_handler` (the library
catches the handler error, calls the error handler once, and a failure of
the error handler itself is caught by the library and not retried — no
further effect is attempted).  An update with no matching handler is
dropped with no effects. -/
def dispatchOne (e : Env) (u : Upd) : List Effect :=
  match classify u with
  | none => []
  | some h =>
    match runHandler e h u with
    | .ok tr => tr
    | .error _ => error_handler (hasEffectiveMessage u)

/-- The polling loop: updates are processed in order, each to completion,
regardless of earlier failures. -/
def dispatchAll (e : Env) : List Upd → List Effect
  | [] => []
  | u :: rest => dispatchOne e u ++ dispatchAll e rest

/-- Outcome of `main`'s startup check. -/
inductive StartResult where
  | earlyReturn
  | runLoop
  deriving DecidableEq, Repr

/-- `main`'s startup (src/bot.py lines 213-220): `if not TOKEN` — token
absent or empty — print the error text and `return`; otherwise build the
application and reach `run_polling`. -/
def mainStartup (token : Option String) : StartResult :=
  match token with
  | none => .earlyReturn
  | some t => if t = "" then .earlyReturn else .runLoop

/-- The process exit status on each startup outcome: the early `return`
falls off the end of the script, so the interpreter exits with status 0
(`runLoop` blocks; 0 stands for its normal termination). -/
def processExitCode : StartResult → Nat
  | .earlyReturn => 0
  | .runLoop => 0

namespace RateLimiter

/-- RateLimiter decision. -/
inductive Decision where
  | Admit
  | Reject
  deriving DecidableEq, Repr

/-- Modelled from the spec: `RateLimiter.check` (spec §4.1).  No rate
limiter exists anywhere in src/bot.py; the spec describes it as tracking a
last-admitted timestamp per user id, rejecting when
`now - lastAdmitted(userId) < windowSeconds`, otherwise recording
`lastAdmitted(userId) = now` and admitting, with an absent entry treated
as admitted at time −∞ (first check always admits). -/
def check (last : Nat → Option Int) (userId : Nat) (now window : Int) :
    Decision × (Nat → Option Int) :=
  match last userId with
  | none => (.Admit, fun u => if u = userId then some now else last u)
  | some t =>
    if now - t < window then (.Reject, last)
    else (.Admit, fun u => if u = userId then some now else last u)

end RateLimiter

/-! Helper definitions and lemmas shared by the theorems below. -/

/-- A trace free of RateLimiter consultations. -/
def traceNoRate (tr : List Effect) : Prop := ∀ x ∈ tr, x.isRateCheck = false

theorem traceNoRate_start (u : TUser) : traceNoRate (start u) := by
  simp [traceNoRate, start, Effect.isRateCheck]

theorem traceNoRate_help : traceNoRate help_command := by
  simp [traceNoRate, help_command, Effect.isRateCheck]

theorem traceNoRate_echo (a : List String) : traceNoRate (echo a) := by
  unfold traceNoRate echo
  split <;> simp [Effect.isRateCheck]

theorem traceNoRate_caps (a : List String) : traceNoRate (caps a) := by
  unfold traceNoRate caps
  split <;> simp [Effect.isRateCheck]

theorem traceNoRate_time (s : String) : traceNoRate (time_command s) := by
  simp [traceNoRate, time_command, Effect.isRateCheck]

theorem traceNoRate_roll (r : Int) (tr : List Effect) (h : roll_dice r = .ok tr) :
    traceNoRate tr := by
  unfold roll_dice at h
  split at h
  · injection h with h2
    subst h2
    simp [traceNoRate, Effect.isRateCheck]
  · simp at h

theorem traceNoRate_flip (b : Bool) : traceNoRate (flip_coin b) := by
  unfold traceNoRate flip_coin
  split <;> simp [Effect.isRateCheck]

theorem traceNoRate_joke (i : Nat) : traceNoRate (joke i) := by
  simp [traceNoRate, joke, Effect.isRateCheck]

theorem traceNoRate_text (t f : String) : traceNoRate (handle_text t f) := by
  unfold traceNoRate handle_text
  split_ifs <;> simp [Effect.isRateCheck]

theorem traceNoRate_photo (p : List (Nat × Nat × Nat)) (tr : List Effect)
    (h : handle_photo p = .ok tr) : traceNoRate tr := by
  unfold handle_photo at h
  split at h
  · injection h with h2
    subst h2
    simp [traceNoRate, Effect.isRateCheck]
  · simp at h

theorem traceNoRate_sticker (s : Option String) (tr : List Effect)
    (h : handle_sticker s = .ok tr) : traceNoRate tr := by
  unfold handle_sticker at h
  split at h
  · injection h with h2
    subst h2
    simp [traceNoRate, Effect.isRateCheck]
  · simp at h

theorem traceNoRate_location (l : Option (Int × Int)) (tr : List Effect)
    (h : handle_location l = .ok tr) : traceNoRate tr := by
  unfold handle_location at h
  split at h
  · injection h with h2
    subst h2
    simp [traceNoRate, Effect.isRateCheck]
  · simp at h

theorem traceNoRate_button (d : String) (u : TUser) (r : Int) :
    traceNoRate (button_callback d u r) := by
  unfold traceNoRate button_callback
  split_ifs <;> simp [Effect.isRateCheck]

theorem traceNoRate_error (b : Bool) : traceNoRate (error_handler b) := by
  unfold traceNoRate error_handler
  split <;> simp [Effect.isRateCheck]

theorem traceNoRate_text_m (m : Msg) (user : TUser) (tr : List Effect)
    (h : (match m.text with
          | some t => Except.ok (handle_text t user.firstName)
          | none => (Except.error "AttributeError" : Except String (List Effect))) = .ok tr) :
    traceNoRate tr := by
  split at h
  · injection h with h2
    subst h2
    exact traceNoRate_text _ _
  · simp at h

theorem runHandler_noRate (e : Env) (h : HandlerId) (u : Upd) (tr : List Effect)
    (hok : runHandler e h u = .ok tr) : traceNoRate tr := by
  unfold runHandler at hok
  by_cases hr : e.raises h
  · simp [hr] at hok
  · simp only [hr, Bool.false_eq_true, if_false] at hok
    cases h <;> cases u <;>
      first
        | exact traceNoRate_roll _ _ hok
        | exact traceNoRate_photo _ _ hok
        | exact traceNoRate_sticker _ _ hok
        | exact traceNoRate_location _ _ hok
        | exact traceNoRate_text_m _ _ _ hok
        | (injection hok with h2
           subst h2
           first
             | exact traceNoRate_start _
             | exact traceNoRate_help
             | exact traceNoRate_echo _
             | exact traceNoRate_caps _
             | exact traceNoRate_time _
             | exact traceNoRate_flip _
             | exact traceNoRate_joke _
             | exact traceNoRate_button _ _ _)
        | injection hok

/-- The command-name to handler mapping of the eight `CommandHandler`
registrations in `main`. -/
def commandHandlerOf (c : String) : Option HandlerId :=
  if c = "start" then some .start
  else if c = "help" then some .help_command
  else if c = "echo" then some .echo
  else if c = "caps" then some .caps
  else if c = "time" then some .time_command
  else if c = "roll" then some .roll_dice
  else if c = "flip" then some .flip_coin
  else if c = "joke" then some .joke
  else none

/-- The greeting condition of `handle_text`
(`any(word in text.lower() for word in ['hello', 'hi', 'hey'])`). -/
def hasGreetingWord (text : String) : Bool :=
  ["hello", "hi", "hey"].any (fun w => containsSub w.toList (lowerChars text))

/-- The thanks condition of `handle_text` (`'thank' in text.lower()`). -/
def hasThankWord (text : String) : Bool :=
  containsSub "thank".toList (lowerChars text)

/-- A failure-free environment with fixed random draws. -/
def env0 : Env := ⟨3, 0, true, "2024-01-01 00:00:00", fun _ => false⟩

/-- A concrete user. -/
def user42 : TUser := ⟨42, "Bob", none, none⟩

/-- A `/joke` command message. -/
def jokeMsg : Msg := ⟨some "/joke", [], none, none, false, false⟩

/-- A `/joke` update from `user42`. -/
def jokeUpd : Upd := .message jokeMsg user42

/-- An environment in which the `joke` handler raises (e.g. its reply
send fails at the transport). -/
def envFail : Env := ⟨3, 0, true, "2024-01-01 00:00:00", fun h => h == HandlerId.joke⟩

/-- A document message: no text, photo, sticker or location payload. -/
def documentMsg : Msg := ⟨none, [], none, none, true, false⟩

/-- A `/start` command message with trailing text. -/
def startMsg : Msg := ⟨some "/start hello", [], none, none, false, false⟩

/-- Claim C1: `RateLimiter.check` satisfies its contract — when the user
has a recorded timestamp `t` and `now - t < window` the check rejects and
leaves the map unchanged; otherwise (including the first-ever check, when
no entry exists) it admits and records `lastAdmitted(userId) = now`.
The RateLimiter is modelled from the spec (§4.1): no rate limiter exists
in src/bot.py. -/
theorem c1_rate_limiter_check_contract (last : Nat → Option Int) (userId : Nat)
    (now window : Int) :
    (last userId = none →
      RateLimiter.check last userId now window =
        (RateLimiter.Decision.Admit, fun u => if u = userId then some now else last u)) ∧
    (∀ t, last userId = some t → now - t < window →
      RateLimiter.check last userId now window = (RateLimiter.Decision.Reject, last)) ∧
    (∀ t, last userId = some t → window ≤ now - t →
      RateLimiter.check last userId now window =
        (RateLimiter.Decision.Admit, fun u => if u = userId then some now else last u)) ∧
    (fun u => if u = userId then some now else last u) userId = some now := by
  refine ⟨?_, ?_, ?_, by simp⟩
  · intro h
    simp [RateLimiter.check, h]
  · intro t ht hlt
    simp [RateLimiter.check, ht, hlt]
  · intro t ht hge
    simp [RateLimiter.check, ht, not_lt.mpr hge]

/-- Witness for C1: user 42, window 2 — first check at time 0 admits and
records 0; a second check at time 1 rejects and leaves the map unchanged;
a check at time 3 admits again and records 3. -/
theorem c1_rate_limiter_check_contract_witness :
    RateLimiter.check (fun _ => none) 42 0 2 =
      (RateLimiter.Decision.Admit, fun u => if u = 42 then some 0 else none) ∧
    RateLimiter.check (fun u => if u = 42 then some (0 : Int) else none) 42 1 2 =
      (RateLimiter.Decision.Reject, fun u => if u = 42 then some 0 else none) ∧
    RateLimiter.check (fun u => if u = 42 then some (0 : Int) else none) 42 3 2 =
      (RateLimiter.Decision.Admit,
        fun u => if u = 42 then some 3 else if u = 42 then some 0 else none) := by
  refine ⟨(c1_rate_limiter_check_contract (fun _ => none) 42 0 2).1 rfl, ?_, ?_⟩
  · exact (c1_rate_limiter_check_contract (fun u => if u = 42 then some (0 : Int) else none)
      42 1 2).2.1 0 (by simp) (by decide)
  · have := (c1_rate_limiter_check_contract (fun u => if u = 42 then some (0 : Int) else none)
      42 3 2).2.2.1 0 (by simp) (by decide)
    simpa using this

/-- Counterexample to C2: dispatching the `/joke` command runs the joke
handler (it produces its reply) with no RateLimiter consultation anywhere
in the trace — the source registers `CommandHandler("joke", joke)` with
no throttle, so the claim that every joke dispatch consults RateLimiter
first is false. -/
theorem c2_joke_not_rate_limited_counterexample :
    dispatchOne env0 jokeUpd = [Effect.send (pyChoice jokes 0)] ∧
    (dispatchOne env0 jokeUpd).all (fun x => !x.isRateCheck) = true := by
  constructor <;> rfl

/-- Claim C2 as amended: no registered handler is rate-limited — every
dispatch, of the joke command like of any other update, proceeds to its
handler (or to the error handler) without any RateLimiter check: no
dispatch trace contains a rate-check effect. -/
theorem c2_no_handler_rate_limited (e : Env) (u : Upd) :
    (dispatchOne e u).all (fun x => !x.isRateCheck) = true := by
  have key : traceNoRate (dispatchOne e u) := by
    unfold dispatchOne
    split
    · simp [traceNoRate]
    · split
      · exact runHandler_noRate _ _ _ _ (by assumption)
      · exact traceNoRate_error _
  simp only [List.all_eq_true]
  intro x hx
  simp [key x hx]

/-- Claim C3: when a handler raises, the update's processing is exactly
the registered `error_handler`'s trace — one error-log entry and at most
one generic error-reply attempt (none when the update has no effective
message, and never a second attempt: a failure of the error reply is
caught by the framework and not retried) — and the loop continues with
the subsequent updates. -/
theorem c3_handler_failure_isolated (e : Env) (u : Upd) (h : HandlerId) (s : String)
    (rest : List Upd) (hc : classify u = some h) (he : runHandler e h u = .error s) :
    dispatchOne e u = error_handler (hasEffectiveMessage u) ∧
    ((dispatchOne e u).filter Effect.isLog).length = 1 ∧
    ((dispatchOne e u).filter Effect.isSend).length ≤ 1 ∧
    dispatchAll e (u :: rest) = dispatchOne e u ++ dispatchAll e rest := by
  have h1 : dispatchOne e u = error_handler (hasEffectiveMessage u) := by
    unfold dispatchOne
    rw [hc]
    simp only [he]
  refine ⟨h1, ?_, ?_, rfl⟩
  · rw [h1]
    unfold error_handler
    split <;> simp [Effect.isLog, Effect.isSend]
  · rw [h1]
    unfold error_handler
    split <;> simp [Effect.isLog, Effect.isSend]

/-- Witness for C3: in an environment where the joke handler raises, the
`/joke` update yields exactly the error handler's trace — one log entry,
at most one error reply — and the next update is still processed. -/
theorem c3_handler_failure_isolated_witness :
    dispatchOne envFail jokeUpd = error_handler true ∧
    ((dispatchOne envFail jokeUpd).filter Effect.isLog).length = 1 ∧
    ((dispatchOne envFail jokeUpd).filter Effect.isSend).length ≤ 1 ∧
    dispatchAll envFail [jokeUpd, jokeUpd] =
      dispatchOne envFail jokeUpd ++ dispatchAll envFail [jokeUpd] := by
  have := c3_handler_failure_isolated envFail jokeUpd .joke "handler raised" [jokeUpd] rfl rfl
  simpa [hasEffectiveMessage] using this

/-- Counterexample to C4: the credential `"ABC123NOSEPARATOR"` contains
no separator character, yet startup reaches the receive loop (no two-part
shape validation exists in `main`); and with the credential absent, `main`
returns early and the process exits with status 0, not non-zero. -/
theorem c4_credential_check_counterexample :
    mainStartup (some "ABC123NOSEPARATOR") = StartResult.runLoop ∧
    ("ABC123NOSEPARATOR".toList.contains ':') = false ∧
    mainStartup none = StartResult.earlyReturn ∧
    processExitCode (mainStartup none) = 0 := by
  refine ⟨rfl, by decide, rfl, rfl⟩

/-- Claim C4 as amended: if the credential is absent or empty, startup
returns before the receive loop and the process exits with status 0 (not
non-zero); any non-empty credential — whether or not it contains a
separator character — reaches the receive loop (no shape validation is
performed). -/
theorem c4_credential_check_amended (token : Option String) :
    ((token = none ∨ token = some "") →
      mainStartup token = StartResult.earlyReturn ∧
      processExitCode (mainStartup token) = 0) ∧
    (∀ t, token = some t → t ≠ "" → mainStartup token = StartResult.runLoop) := by
  constructor
  · rintro (rfl | rfl) <;> exact ⟨rfl, rfl⟩
  · rintro t rfl ht
    unfold mainStartup
    simp [ht]

/-- Witness for C4 (amended): `"abc"` reaches the loop; an absent token
returns early with exit status 0. -/
theorem c4_credential_check_amended_witness :
    mainStartup (some "abc") = StartResult.runLoop ∧
    mainStartup none = StartResult.earlyReturn ∧
    processExitCode (mainStartup none) = 0 := by
  refine ⟨(c4_credential_check_amended (some "abc")).2 "abc" rfl (by decide), ?_, ?_⟩
  · exact ((c4_credential_check_amended none).1 (Or.inl rfl)).1
  · exact ((c4_credential_check_amended none).1 (Or.inl rfl)).2

/-- Claim C5: a text message whose text is a recognized registered
command is classified to that command's handler — and never to
`handle_text`, the plain-text handler (also for unrecognized commands,
which `filters.TEXT & ~filters.COMMAND` excludes). -/
theorem c5_command_precedence (m : Msg) (usr : TUser) (t c : String)
    (h0 : m.text = some t) (h1 : commandOf t = some c) :
    (∀ hid, commandHandlerOf c = some hid →
      classify (.message m usr) = some hid ∧ hid ≠ HandlerId.handle_text) ∧
    classify (.message m usr) ≠ some HandlerId.handle_text := by
  constructor
  · intro hid hh
    unfold commandHandlerOf at hh
    split_ifs at hh with hc1 hc2 hc3 hc4 hc5 hc6 hc7 hc8 <;>
      injection hh with hh <;> subst hh <;> subst_vars <;>
      exact ⟨by simp [classify, registeredHandlers, List.find?, msgFilter, cmdMatch, h0, h1],
        by decide⟩
  · intro hcl
    have hp := List.find?_some hcl
    simp [msgFilter, isCommandMsg, h0, h1] at hp

/-- Witness for C5: the text message `"/start hello"` — both a recognized
command and text — is dispatched to `start`, not to `handle_text`. -/
theorem c5_command_precedence_witness :
    classify (.message startMsg user42) = some HandlerId.start ∧
    HandlerId.start ≠ HandlerId.handle_text ∧
    classify (.message startMsg user42) ≠ some HandlerId.handle_text := by
  have h := c5_command_precedence startMsg user42 "/start hello" "start" rfl rfl
  exact ⟨(h.1 HandlerId.start rfl).1, (h.1 HandlerId.start rfl).2, h.2⟩

/-- Claim C6: a message update with no text, photo, sticker or location
payload (e.g. a document or video) matches no registered handler:
classification yields nothing and the dispatch trace is empty — no
handler invocation, zero outward sends, no error-log entry. -/
theorem c6_unregistered_kind_dropped (e : Env) (m : Msg) (usr : TUser)
    (h1 : m.text = none) (h2 : m.photo = []) (h3 : m.sticker = none)
    (h4 : m.location = none) :
    classify (.message m usr) = none ∧ dispatchOne e (.message m usr) = [] := by
  have hc : classify (.message m usr) = none := by
    simp [classify, registeredHandlers, List.find?, msgFilter, cmdMatch, isCommandMsg,
      h1, h2, h3, h4]
  refine ⟨hc, ?_⟩
  unfold dispatchOne
  rw [hc]

/-- Witness for C6: a document update yields no handler and an empty
trace. -/
theorem c6_unregistered_kind_dropped_witness :
    classify (.message documentMsg user42) = none ∧
    dispatchOne env0 (.message documentMsg user42) = [] :=
  c6_unregistered_kind_dropped env0 documentMsg user42 rfl rfl rfl rfl

/-- Claim C7: a button-press update with a callback token other than
`"dice"` and `"stats"` is acknowledged (`query.answer()`) and nothing
else: the handler trace is exactly the acknowledgement, with no reply and
no message edit — at the dispatch level too, when the handler does not
raise. -/
theorem c7_unknown_callback_ack_only (e : Env) (d : String) (usr : TUser) (r : Int)
    (h1 : d ≠ "dice") (h2 : d ≠ "stats") :
    button_callback d usr r = [Effect.ack] ∧
    (e.raises HandlerId.button_callback = false →
      dispatchOne e (.callbackQuery d usr) = [Effect.ack]) := by
  have hb : button_callback d usr e.diceRoll = [Effect.ack] := by
    unfold button_callback
    simp [h1, h2]
  constructor
  · unfold button_callback
    simp [h1, h2]
  · intro hr
    unfold dispatchOne classify runHandler
    simp only [hr, Bool.false_eq_true, if_false]
    exact hb

/-- Witness for C7: the unknown token `"unknown"` gets exactly the
acknowledgement. -/
theorem c7_unknown_callback_ack_only_witness :
    button_callback "unknown" user42 3 = [Effect.ack] ∧
    dispatchOne env0 (.callbackQuery "unknown" user42) = [Effect.ack] := by
  have := c7_unknown_callback_ack_only env0 "unknown" user42 3 (by decide) (by decide)
  exact ⟨this.1, this.2 rfl⟩

/-- Claim C8: for every result the `random.randint(1, 6)` contract
allows, the index `result - 1` into the six-element `dice_emojis` list is
in bounds, so `roll_dice` always succeeds — the indexing-error branch is
unreachable. -/
theorem c8_roll_index_in_bounds (r : Int) (h : randintSpec 1 6 r) :
    (pyIdx dice_emojis.length (r - 1)).isSome = true ∧
    ∃ es, roll_dice r = .ok es := by
  obtain ⟨h1, h6⟩ := h
  have hlt : (r - 1).toNat < dice_emojis.length := by
    show (r - 1).toNat < 6
    omega
  have hidx : pyIdx dice_emojis.length (r - 1) = some (r - 1).toNat := by
    unfold pyIdx
    rw [if_pos (by omega), if_pos hlt]
  refine ⟨by rw [hidx]; rfl, ?_⟩
  unfold roll_dice pyGet
  rw [hidx]
  obtain ⟨x, hx⟩ : ∃ x, dice_emojis.get? (r - 1).toNat = some x := by
    cases hg : dice_emojis.get? (r - 1).toNat with
    | none => exact absurd (List.get?_eq_none.mp hg) (Nat.not_le.mpr hlt)
    | some x => exact ⟨x, rfl⟩
  simp only [hx]
  exact ⟨_, rfl⟩

/-- Witness for C8: at the concrete roll 4 the index is in bounds and the
handler succeeds. -/
theorem c8_roll_index_in_bounds_witness :
    randintSpec 1 6 4 ∧
    (pyIdx dice_emojis.length (4 - 1)).isSome = true ∧
    ∃ es, roll_dice 4 = .ok es :=
  ⟨⟨by decide, by decide⟩, c8_roll_index_in_bounds 4 ⟨by decide, by decide⟩⟩

/-- Claim C9: `handle_text` matches by raw case-insensitive substring
search with greeting first — any text whose lowercasing contains
`"hello"`, `"hi"` or `"hey"` anywhere gets the greeting with the first
name (even if it also contains `"thank"`); texts without those substrings
but containing `"thank"` get the thanks reply; all other texts get the
formatted echo. -/
theorem c9_handle_text_keyword_rules (text firstName : String) :
    (hasGreetingWord text = true →
      handle_text text firstName = [.send ("👋 Hello " ++ firstName ++ "!")]) ∧
    (hasGreetingWord text = false → hasThankWord text = true →
      handle_text text firstName = [.send "🙏 You\x27re welcome!"]) ∧
    (hasGreetingWord text = false → hasThankWord text = false →
      handle_text text firstName =
        [.send ("You sent: <code>" ++ text ++ "</code>\n\nTry /help for commands!")]) := by
  unfold hasGreetingWord hasThankWord handle_text
  refine ⟨?_, ?_, ?_⟩
  · intro hg
    rw [if_pos hg]
  · intro hg ht
    rw [if_neg (by rw [hg]; simp), if_pos ht]
  · intro hg ht
    rw [if_neg (by rw [hg]; simp), if_neg (by rw [ht]; simp)]

/-- Witness for C9: `"Think, thanks!"` contains `"hi"` inside `"Think"`
and also contains `"thank"`, and still gets the greeting reply — the
substring match reaches inside longer words and greeting precedes
thanks. -/
theorem c9_handle_text_keyword_rules_witness :
    hasGreetingWord "Think, thanks!" = true ∧
    hasThankWord "Think, thanks!" = true ∧
    handle_text "Think, thanks!" "Ann" = [.send "👋 Hello Ann!"] :=
  ⟨by decide, by decide, (c9_handle_text_keyword_rules "Think, thanks!" "Ann").1 (by decide)⟩

/-- Claim C10: for every callback token, known or unknown,
`button_callback`'s trace starts with the acknowledgement and everything
after it is a message edit — the acknowledgement always happens before
any edit is attempted. -/
theorem c10_ack_before_edit (d : String) (usr : TUser) (r : Int) :
    ∃ es, button_callback d usr r = Effect.ack :: es ∧ es.all Effect.isEdit = true := by
  unfold button_callback
  refine ⟨_, rfl, ?_⟩
  split_ifs <;> simp [Effect.isEdit]

end Bot
